import Mathlib

/-!
Shallow embedding of the DuraGas tank-state engine
(`custom_components/dura_gas/coordinator.py`, constants from
`custom_components/dura_gas/const.py`).

Python floats are modelled as exact rationals; Python's `round(x, n)` is
modelled as round-half-to-even at `n` decimal digits (Python 3's rounding
mode on exact values).  Python `datetime` values are modelled as a rational
timestamp measured in days together with the calendar month and year
(the only datetime components the engine inspects).  Python `None` is
modelled by `Option`.
-/

/-- Python `round` to an integer: round half to even. -/
def roundHalfEven (x : ℚ) : ℤ :=
  let f := ⌊x⌋
  if x - f < 1/2 then f
  else if 1/2 < x - f then f + 1
  else if f % 2 = 0 then f else f + 1

/-- Python `round(x, n)` for a nonnegative number of decimal digits. -/
def roundTo (n : ℕ) (x : ℚ) : ℚ :=
  (roundHalfEven (x * 10 ^ n) : ℚ) / 10 ^ n

/-- Constant `const.LP_GAS_KG_TO_LITERS = 1.96`. -/
def LP_GAS_KG_TO_LITERS : ℚ := 196 / 100

/-- Constant `const.MAX_REFILL_HISTORY = 50`. -/
def MAX_REFILL_HISTORY : ℕ := 50

/-- Constant `const.WATER_HEATING_BASE_PERCENTAGE = 40`. -/
def WATER_HEATING_BASE_PERCENTAGE : ℚ := 40

/-- Constant `const.CYLINDER_MONTHLY_COST = 584.0`. -/
def CYLINDER_MONTHLY_COST : ℚ := 584

/-- Enumeration `const.HeatingMode` (`solar_gas_hybrid`, `solar_only`, `gas_only`,
`none`; the last is named `no_heating` here since `none` is taken). -/
inductive HeatingMode where
  | solar_gas_hybrid
  | solar_only
  | gas_only
  | no_heating
deriving DecidableEq, Repr

/-- A Python `datetime`: timestamp in days (fractional), plus calendar
month and year, the only components the coordinator inspects. -/
structure DateTime where
  t : ℚ
  month : ℕ
  year : ℤ
deriving DecidableEq, Repr

/-- One record of `refill_history` as built by `async_record_refill`.
`level_after` is optional because `_calculate_consumption` tolerates its
absence via `.get("level_after", 100)`. -/
structure RefillRecord where
  date : ℚ
  liters : ℚ
  price_per_liter : ℚ
  total_cost : ℚ
  level_before : ℚ
  level_after : Option ℚ
deriving DecidableEq, Repr

/-- The coordinator's `_stored_data` dictionary. -/
structure StoredData where
  current_level : ℚ
  refill_history : List RefillRecord
  solar_roi_accumulated : ℚ
  heating_mode : HeatingMode
  refill_strategy : String
  custom_strategy_amount : Option ℚ
  last_solar_update : Option DateTime
deriving DecidableEq, Repr

/-- The slice of `_build_config`'s output that the calculations read. -/
structure ConfigEntry where
  usable_capacity : ℚ
  price_per_liter : ℚ
  has_solar : Bool
  solar_investment : ℚ
  solar_efficiency : ℚ
deriving DecidableEq, Repr

/-- Output of `_calculate_tank_state`. -/
structure TankState where
  usable_capacity : ℚ
  current_level : ℚ
  current_liters : ℚ
  current_kg : ℚ
  current_value : ℚ
deriving DecidableEq, Repr

/-- Embedding of `_calculate_tank_state`: liters, kg and value at the current level,
rounded to two decimals for display. -/
def calculate_tank_state (usable_capacity current_level price_per_liter : ℚ) :
    TankState :=
  let current_liters := usable_capacity * (current_level / 100)
  let current_kg := current_liters / LP_GAS_KG_TO_LITERS
  let current_value := current_liters * price_per_liter
  { usable_capacity := usable_capacity
    current_level := current_level
    current_liters := roundTo 2 current_liters
    current_kg := roundTo 2 current_kg
    current_value := roundTo 2 current_value }

/-- Output of `_calculate_consumption`. -/
structure Consumption where
  daily : ℚ
  monthly : ℚ
  days_since_refill : ℤ
  liters_consumed : ℚ
deriving DecidableEq, Repr

/-- Embedding of `_calculate_consumption`: consumption statistics since the most recent
refill.  `now` is the current time in days; `(now - d).days` of Python is
the floor of the difference. -/
def calculate_consumption (stored : StoredData) (usable_capacity : ℚ)
    (now : ℚ) : Consumption :=
  match stored.refill_history.getLast? with
  | Option.none =>
      { daily := 0, monthly := 0, days_since_refill := 0, liters_consumed := 0 }
  | Option.some last_refill =>
      let days_since_refill : ℤ := max ⌊now - last_refill.date⌋ 1
      let level_after_refill := last_refill.level_after.getD 100
      let liters_at_refill := usable_capacity * (level_after_refill / 100)
      let current_liters := usable_capacity * (stored.current_level / 100)
      let liters_consumed := max (liters_at_refill - current_liters) 0
      let daily_consumption :=
        if days_since_refill > 0 then liters_consumed / (days_since_refill : ℚ)
        else 0
      { daily := roundTo 2 daily_consumption
        monthly := roundTo 2 (daily_consumption * 30)
        days_since_refill := days_since_refill
        liters_consumed := roundTo 2 liters_consumed }

/-- Output of `_calculate_projection`.  The Python code uses `float('inf')`
as an internal sentinel and normalises it to `None` in the returned dict;
the `Option` fields model the returned dict directly. -/
structure Projection where
  days_remaining : Option ℚ
  weeks_remaining : Option ℚ
  next_refill_date : Option ℚ
  recommended_liters : ℚ
  recommended_cost : ℚ
  resulting_level : ℚ
deriving DecidableEq, Repr

/-- Embedding of `_calculate_recommended_liters`: dispatch on the strategy tag.
`RefillStrategy` is a `StrEnum`, so the tag is modelled as its string
value; the `case _` fallback of the Python `match` is the final branch. -/
def calculate_recommended_liters (strategy : String)
    (usable_capacity current_liters price_per_liter : ℚ)
    (custom_strategy_amount : Option ℚ) : ℚ :=
  if strategy = "fill_complete" then max (usable_capacity - current_liters) 0
  else if strategy = "fixed_300" then 300 / price_per_liter
  else if strategy = "fixed_400" then 400 / price_per_liter
  else if strategy = "fixed_500" then 500 / price_per_liter
  else if strategy = "fixed_600" then 600 / price_per_liter
  else if strategy = "level_50" then
    max (usable_capacity * (5/10) - current_liters) 0
  else if strategy = "level_60" then
    max (usable_capacity * (6/10) - current_liters) 0
  else if strategy = "level_70" then
    max (usable_capacity * (7/10) - current_liters) 0
  else if strategy = "custom" then
    -- `self._stored_data.get("custom_strategy_amount", 400)` followed by
    -- `(custom_amount or 400)`: `None` and `0` both fall back to 400.
    (match custom_strategy_amount with
     | Option.some a => if a = 0 then 400 else a
     | Option.none => 400) / price_per_liter
  else max (usable_capacity - current_liters) 0

/-- Embedding of `_calculate_projection`.  `daily` and `current_liters` are the values
the refresh pipeline passes in (`consumption["daily"]`,
`tank["current_liters"]`); `now` is the current time in days. -/
def calculate_projection (strategy : String) (custom_strategy_amount : Option ℚ)
    (price_per_liter daily current_liters usable_capacity now : ℚ) :
    Projection :=
  let recommended_liters :=
    calculate_recommended_liters strategy usable_capacity current_liters
      price_per_liter custom_strategy_amount
  let recommended_cost := recommended_liters * price_per_liter
  let resulting_level := ((current_liters + recommended_liters) / usable_capacity) * 100
  if daily > 0 then
    let days_remaining := current_liters / daily
    { days_remaining := Option.some (roundTo 1 days_remaining)
      weeks_remaining := Option.some (roundTo 1 (days_remaining / 7))
      next_refill_date := Option.some (now + days_remaining)
      recommended_liters := roundTo 2 recommended_liters
      recommended_cost := roundTo 2 recommended_cost
      resulting_level := roundTo 1 (min resulting_level 100) }
  else
    { days_remaining := Option.none
      weeks_remaining := Option.none
      next_refill_date := Option.none
      recommended_liters := roundTo 2 recommended_liters
      recommended_cost := roundTo 2 recommended_cost
      resulting_level := roundTo 1 (min resulting_level 100) }

/-- Output of `_calculate_solar`.  `months_to_payback` is `None` exactly
when the Python value is `float('inf')`. -/
structure Solar where
  efficiency_real : ℚ
  savings_monthly : ℚ
  roi_accumulated : ℚ
  roi_percentage : ℚ
  months_to_payback : Option ℚ
  hot_water_consumption : ℚ
  heating_mode : HeatingMode
deriving DecidableEq, Repr

/-- The `months_to_payback` computation inside `_calculate_solar`
(coordinator.py lines 352–355), on the unrounded monthly savings. -/
def months_to_payback_calc (savings_monthly solar_investment roi_accumulated : ℚ) :
    Option ℚ :=
  if savings_monthly > 0 ∧ solar_investment > roi_accumulated then
    Option.some ((solar_investment - roi_accumulated) / savings_monthly)
  else if roi_accumulated ≥ solar_investment then Option.some 0
  else Option.none

/-- Embedding of `_calculate_solar`.  `monthly_consumption` is `consumption["monthly"]`;
`roi_accumulated` is `_stored_data["solar_roi_accumulated"]`. -/
def calculate_solar (monthly_consumption price_per_liter solar_efficiency
    solar_investment : ℚ) (heating_mode : HeatingMode) (roi_accumulated : ℚ) :
    Solar :=
  let base_water_heating := monthly_consumption * (WATER_HEATING_BASE_PERCENTAGE / 100)
  let coverage : ℚ :=
    match heating_mode with
    | HeatingMode.solar_gas_hybrid => solar_efficiency / 100
    | HeatingMode.solar_only => 1
    | _ => 0
  let liters_saved := base_water_heating * coverage
  let savings_monthly := liters_saved * price_per_liter
  let roi_percentage :=
    if solar_investment > 0 then roi_accumulated / solar_investment * 100 else 0
  let hot_water_consumption :=
    if monthly_consumption > 0 then base_water_heating / 30 else 0
  { efficiency_real := solar_efficiency
    savings_monthly := roundTo 2 savings_monthly
    roi_accumulated := roundTo 2 roi_accumulated
    roi_percentage := roundTo 2 roi_percentage
    months_to_payback :=
      (months_to_payback_calc savings_monthly solar_investment roi_accumulated).map
        (roundTo 1)
    hot_water_consumption := roundTo 2 hot_water_consumption
    heating_mode := heating_mode }

/-- Embedding of `_update_solar_roi`: the monthly ROI accrual side effect of refresh.
`solar` is the just-computed solar block (`None` when `has_solar` is off). -/
def update_solar_roi (stored : StoredData) (solar : Option Solar)
    (now : DateTime) : StoredData :=
  match solar with
  | Option.none => stored
  | Option.some s =>
      match stored.last_solar_update with
      | Option.some last_update_date =>
          if now.month ≠ last_update_date.month ∨ now.year ≠ last_update_date.year then
            { stored with
                solar_roi_accumulated := stored.solar_roi_accumulated + s.savings_monthly
                last_solar_update := Option.some now }
          else stored
      | Option.none => { stored with last_solar_update := Option.some now }

/-- Embedding of `async_record_refill` (the mutation of `_stored_data`; the refresh it
triggers afterwards is a separate `Op.refresh` step). -/
def record_refill (stored : StoredData) (usable_capacity liters
    price_per_liter : ℚ) (refill_date : DateTime) : StoredData :=
  let level_before := stored.current_level
  let liters_before := usable_capacity * (level_before / 100)
  let liters_after := liters_before + liters
  let level_after := min ((liters_after / usable_capacity) * 100) 100
  let refill_entry : RefillRecord :=
    { date := refill_date.t
      liters := liters
      price_per_liter := price_per_liter
      total_cost := roundTo 2 (liters * price_per_liter)
      level_before := roundTo 1 level_before
      level_after := Option.some (roundTo 1 level_after) }
  let refill_history := stored.refill_history ++ [refill_entry]
  let refill_history :=
    if refill_history.length > MAX_REFILL_HISTORY then
      refill_history.drop (refill_history.length - MAX_REFILL_HISTORY)
    else refill_history
  { stored with
      refill_history := refill_history
      current_level := level_after }

/-- Embedding of `async_update_level`: clamp into [0, 100] and overwrite. -/
def update_level (stored : StoredData) (level_percent : ℚ) : StoredData :=
  { stored with current_level := max 0 (min 100 level_percent) }

/-- Embedding of `async_set_heating_mode`. -/
def set_heating_mode (stored : StoredData) (mode : HeatingMode) : StoredData :=
  { stored with heating_mode := mode }

/-- Embedding of `async_set_strategy`. -/
def set_strategy (stored : StoredData) (strategy : String)
    (custom_amount : Option ℚ) : StoredData :=
  let stored := { stored with refill_strategy := strategy }
  match custom_amount with
  | Option.some a =>
      if strategy = "custom" then { stored with custom_strategy_amount := Option.some a }
      else stored
  | Option.none => stored

/-- The stateful part of `_async_update_data` (refresh): recompute
consumption and the solar block and run `_update_solar_roi`.  No other
field of `_stored_data` is touched by a refresh. -/
def refresh_step (cfg : ConfigEntry) (now : DateTime) (stored : StoredData) :
    StoredData :=
  let consumption := calculate_consumption stored cfg.usable_capacity now.t
  let solar :=
    if cfg.has_solar then
      Option.some (calculate_solar consumption.monthly cfg.price_per_liter
        cfg.solar_efficiency cfg.solar_investment stored.heating_mode
        stored.solar_roi_accumulated)
    else Option.none
  update_solar_roi stored solar now

/-- The operations that can touch `_stored_data`: the five service-facing
mutations plus the periodic refresh (`async_update_price` rewrites only the
config entry, never `_stored_data`). -/
inductive Op where
  | op_record_refill (cfg : ConfigEntry) (liters price_per_liter : ℚ)
      (refill_date : DateTime)
  | op_update_level (level_percent : ℚ)
  | op_update_price (price_per_liter : ℚ)
  | op_set_heating_mode (mode : HeatingMode)
  | op_set_strategy (strategy : String) (custom_amount : Option ℚ)
  | op_refresh (cfg : ConfigEntry) (now : DateTime)
deriving DecidableEq

/-- One step of the coordinator's state machine on `_stored_data`. -/
def step (stored : StoredData) : Op → StoredData
  | Op.op_record_refill cfg liters price d =>
      record_refill stored cfg.usable_capacity liters price d
  | Op.op_update_level level => update_level stored level
  | Op.op_update_price _ => stored
  | Op.op_set_heating_mode mode => set_heating_mode stored mode
  | Op.op_set_strategy strategy amount => set_strategy stored strategy amount
  | Op.op_refresh cfg now => refresh_step cfg now stored

/-- The external validation the spec assumes for inputs reaching the
engine: refill liters in [0, 200] with a positive usable capacity, level
updates in [0, 100]. -/
def validOp : Op → Prop
  | Op.op_record_refill cfg liters _ _ =>
      0 ≤ liters ∧ liters ≤ 200 ∧ 0 < cfg.usable_capacity
  | Op.op_update_level level => 0 ≤ level ∧ level ≤ 100
  | _ => True

/-- Nonnegativity of the configured price and solar efficiency, as assumed
by the spec's monotonicity property for the solar ROI. -/
def solarValidOp : Op → Prop
  | Op.op_refresh cfg _ => 0 ≤ cfg.price_per_liter ∧ 0 ≤ cfg.solar_efficiency
  | _ => True

/-- Running a sequence of operations from a starting `_stored_data`. -/
def run_ops (stored : StoredData) (ops : List Op) : StoredData :=
  ops.foldl step stored

/-- A sequence of refreshes, each of which computed a solar block
(`solar is not None`), restricted to their `_update_solar_roi` effect. -/
def run_solar_updates (stored : StoredData) (calls : List (Solar × DateTime)) :
    StoredData :=
  calls.foldl (fun st c => update_solar_roi st (Option.some c.1) c.2) stored

example :
    (calculate_consumption
      { current_level := 50
        refill_history := [{ date := 0, liters := 40, price_per_liter := 11,
                             total_cost := 440, level_before := 20,
                             level_after := Option.some 60 }]
        solar_roi_accumulated := 0
        heating_mode := HeatingMode.gas_only
        refill_strategy := "fill_complete"
        custom_strategy_amount := Option.none
        last_solar_update := Option.none } 96 (5/2)).days_since_refill = 2 := by
  norm_num [calculate_consumption]

example : roundTo 2 (48 / LP_GAS_KG_TO_LITERS) = 2449/100 := by
  norm_num [roundTo, roundHalfEven, LP_GAS_KG_TO_LITERS]

example : roundTo 1 (1/20 : ℚ) = 0 := by norm_num [roundTo, roundHalfEven]

/-! ### Facts about the rounding model -/

theorem roundHalfEven_eq_floor_or (x : ℚ) :
    (roundHalfEven x = ⌊x⌋ ∧ x - ⌊x⌋ ≤ 1/2) ∨
    (roundHalfEven x = ⌊x⌋ + 1 ∧ 1/2 ≤ x - ⌊x⌋) := by
  simp only [roundHalfEven]
  split_ifs with h1 h2 h3
  · exact Or.inl ⟨rfl, h1.le⟩
  · exact Or.inr ⟨rfl, h2.le⟩
  · exact Or.inl ⟨rfl, not_lt.mp h2⟩
  · exact Or.inr ⟨rfl, not_lt.mp h1⟩

theorem roundHalfEven_nonneg (x : ℚ) (hx : 0 ≤ x) : 0 ≤ roundHalfEven x := by
  have hf : (0 : ℤ) ≤ ⌊x⌋ := Int.floor_nonneg.mpr hx
  rcases roundHalfEven_eq_floor_or x with ⟨h, _⟩ | ⟨h, _⟩ <;> omega

theorem roundHalfEven_le_of_le (x : ℚ) (m : ℤ) (h : x ≤ (m : ℚ)) :
    roundHalfEven x ≤ m := by
  rcases roundHalfEven_eq_floor_or x with ⟨he, _⟩ | ⟨he, hge⟩
  · rw [he]
    calc ⌊x⌋ ≤ ⌊(m : ℚ)⌋ := Int.floor_le_floor h
    _ = m := Int.floor_intCast m
  · rw [he]
    have h1 : (⌊x⌋ : ℚ) ≤ x := Int.floor_le x
    have h2 : (⌊x⌋ : ℚ) < (m : ℚ) := by linarith
    have h3 : ⌊x⌋ < m := by exact_mod_cast h2
    omega

theorem abs_roundHalfEven_sub_le (x : ℚ) : |(roundHalfEven x : ℚ) - x| ≤ 1/2 := by
  have h1 : (⌊x⌋ : ℚ) ≤ x := Int.floor_le x
  have h2 : x < (⌊x⌋ : ℚ) + 1 := Int.lt_floor_add_one x
  rcases roundHalfEven_eq_floor_or x with ⟨he, hle⟩ | ⟨he, hge⟩ <;>
    rw [he] <;> rw [abs_le] <;> constructor <;> push_cast <;> linarith

theorem roundTo_nonneg (n : ℕ) (x : ℚ) (hx : 0 ≤ x) : 0 ≤ roundTo n x := by
  have h : (0 : ℚ) ≤ (roundHalfEven (x * 10 ^ n) : ℚ) := by
    exact_mod_cast roundHalfEven_nonneg _ (by positivity)
  exact div_nonneg h (by positivity)

theorem roundTo_le_hundred (n : ℕ) (x : ℚ) (hx : x ≤ 100) : roundTo n x ≤ 100 := by
  have hp : (0 : ℚ) < 10 ^ n := by positivity
  have h : roundHalfEven (x * 10 ^ n) ≤ 100 * 10 ^ n := by
    refine roundHalfEven_le_of_le _ _ ?_
    push_cast
    exact mul_le_mul_of_nonneg_right hx hp.le
  rw [roundTo, div_le_iff₀ hp]
  calc (roundHalfEven (x * 10 ^ n) : ℚ) ≤ ((100 * 10 ^ n : ℤ) : ℚ) := by
        exact_mod_cast h
  _ = 100 * 10 ^ n := by push_cast; ring

theorem abs_roundTo_sub_le (n : ℕ) (x : ℚ) :
    |roundTo n x - x| ≤ 1 / (2 * 10 ^ n) := by
  have hp : (0 : ℚ) < 10 ^ n := by positivity
  have h := abs_roundHalfEven_sub_le (x * 10 ^ n)
  have hx : roundTo n x - x = ((roundHalfEven (x * 10 ^ n) : ℚ) - x * 10 ^ n) / 10 ^ n := by
    rw [roundTo]
    field_simp
    ring
  rw [hx, abs_div, abs_of_pos hp, div_le_div_iff₀ hp (by positivity)]
  calc |(roundHalfEven (x * 10 ^ n) : ℚ) - x * 10 ^ n| * (2 * 10 ^ n)
      ≤ (1/2) * (2 * 10 ^ n) := by
        exact mul_le_mul_of_nonneg_right h (by positivity)
  _ = 1 * 10 ^ n := by ring

/-! ### C9: tank-state conversions -/

/-- C9: for `current_level` in [0,100] and `usable_capacity > 0`, the tank
state reports `current_liters = usable_capacity × level/100` and
`current_kg = current_liters / 1.96` (each at display precision, two
decimals); the conversion is exactly invertible on the underlying values,
and multiplying the reported `current_kg` back by 1.96 recovers the
reported `current_liters` within rounding tolerance (3/200). -/
theorem tank_state_kg_liters_roundtrip
    (usable_capacity current_level price_per_liter : ℚ)
    (h0 : 0 ≤ current_level) (h100 : current_level ≤ 100)
    (hu : 0 < usable_capacity) :
    (calculate_tank_state usable_capacity current_level price_per_liter).current_liters
        = roundTo 2 (usable_capacity * (current_level / 100)) ∧
    (calculate_tank_state usable_capacity current_level price_per_liter).current_kg
        = roundTo 2 (usable_capacity * (current_level / 100) / LP_GAS_KG_TO_LITERS) ∧
    usable_capacity * (current_level / 100) / LP_GAS_KG_TO_LITERS * LP_GAS_KG_TO_LITERS
        = usable_capacity * (current_level / 100) ∧
    |(calculate_tank_state usable_capacity current_level price_per_liter).current_kg
        * LP_GAS_KG_TO_LITERS
      - (calculate_tank_state usable_capacity current_level price_per_liter).current_liters|
        ≤ 3/200 := by
  refine ⟨rfl, rfl, ?_, ?_⟩
  · exact div_mul_cancel₀ _ (by norm_num [LP_GAS_KG_TO_LITERS])
  · have hLP : LP_GAS_KG_TO_LITERS = 196/100 := rfl
    set L := usable_capacity * (current_level / 100) with hL
    have h1 := abs_roundTo_sub_le 2 (L / LP_GAS_KG_TO_LITERS)
    have h2 := abs_roundTo_sub_le 2 L
    have hinv : L / LP_GAS_KG_TO_LITERS * LP_GAS_KG_TO_LITERS = L :=
      div_mul_cancel₀ _ (by norm_num [LP_GAS_KG_TO_LITERS])
    rw [abs_le] at h1 h2 ⊢
    have e1 : (calculate_tank_state usable_capacity current_level price_per_liter).current_kg
        = roundTo 2 (L / LP_GAS_KG_TO_LITERS) := rfl
    have e2 : (calculate_tank_state usable_capacity current_level price_per_liter).current_liters
        = roundTo 2 L := rfl
    rw [e1, e2]
    constructor
    · nlinarith [h1.1, h1.2, h2.1, h2.2]
    · nlinarith [h1.1, h1.2, h2.1, h2.2]

/-- C9 witness at `usable_capacity = 96`, `current_level = 50`,
`price_per_liter = 10.88`. -/
theorem tank_state_kg_liters_roundtrip_witness :
    (calculate_tank_state 96 50 (1088/100)).current_liters
        = roundTo 2 (96 * ((50 : ℚ) / 100)) ∧
    (calculate_tank_state 96 50 (1088/100)).current_kg
        = roundTo 2 (96 * ((50 : ℚ) / 100) / LP_GAS_KG_TO_LITERS) ∧
    (96 : ℚ) * (50 / 100) / LP_GAS_KG_TO_LITERS * LP_GAS_KG_TO_LITERS
        = 96 * (50 / 100) ∧
    |(calculate_tank_state 96 50 (1088/100)).current_kg * LP_GAS_KG_TO_LITERS
      - (calculate_tank_state 96 50 (1088/100)).current_liters| ≤ 3/200 :=
  tank_state_kg_liters_roundtrip 96 50 (1088/100) (by norm_num) (by norm_num)
    (by norm_num)

/-! ### C3: strategy recommendation table -/

/-- C3: `recommended_liters` follows the spec's strategy table —
`fill_complete` tops the tank up, the fixed strategies divide the fixed
currency amount by the price, the level strategies top up to the target
fraction, `custom` divides the stored custom amount (default 400) by the
price, and an unrecognized strategy tag falls back to `fill_complete`. -/
theorem recommended_liters_table (u c p : ℚ) (amt : Option ℚ)
    (hu : 0 ≤ u) (hc : 0 ≤ c) (hp : 0 < p)
    (hamt : ∀ a ∈ amt, 100 ≤ a ∧ a ≤ 2000) :
    calculate_recommended_liters "fill_complete" u c p amt = max (u - c) 0 ∧
    calculate_recommended_liters "fixed_300" u c p amt = 300 / p ∧
    calculate_recommended_liters "fixed_400" u c p amt = 400 / p ∧
    calculate_recommended_liters "fixed_500" u c p amt = 500 / p ∧
    calculate_recommended_liters "fixed_600" u c p amt = 600 / p ∧
    calculate_recommended_liters "level_50" u c p amt = max (u * (1/2) - c) 0 ∧
    calculate_recommended_liters "level_60" u c p amt = max (u * (3/5) - c) 0 ∧
    calculate_recommended_liters "level_70" u c p amt = max (u * (7/10) - c) 0 ∧
    calculate_recommended_liters "custom" u c p amt = amt.getD 400 / p ∧
    (∀ s : String,
      s ∉ ["fill_complete", "fixed_300", "fixed_400", "fixed_500", "fixed_600",
           "level_50", "level_60", "level_70", "custom"] →
      calculate_recommended_liters s u c p amt = max (u - c) 0) := by
  refine ⟨?_, ?_, ?_, ?_, ?_, ?_, ?_, ?_, ?_, ?_⟩
  · simp [calculate_recommended_liters]
  · simp [calculate_recommended_liters]
  · simp [calculate_recommended_liters]
  · simp [calculate_recommended_liters]
  · simp [calculate_recommended_liters]
  · simp [calculate_recommended_liters]; norm_num
  · simp [calculate_recommended_liters]; norm_num
  · simp [calculate_recommended_liters]
  · rcases amt with _ | a
    · simp [calculate_recommended_liters]
    · have ha := hamt a rfl
      have hne : a ≠ 0 := by intro h; rw [h] at ha; linarith [ha.1]
      simp [calculate_recommended_liters, hne]
  · intro s hs
    simp only [List.mem_cons, List.not_mem_nil, or_false, not_or] at hs
    obtain ⟨n1, n2, n3, n4, n5, n6, n7, n8, n9⟩ := hs
    simp [calculate_recommended_liters, n1, n2, n3, n4, n5, n6, n7, n8, n9]

/-- C3 witness at `u = 96`, `c = 48`, `p = 10.88`, no stored custom
amount, checking the unrecognized tag `"bogus"` in the fallback clause. -/
theorem recommended_liters_table_witness :
    calculate_recommended_liters "fill_complete" 96 48 (1088/100) Option.none
        = max ((96 : ℚ) - 48) 0 ∧
    calculate_recommended_liters "fixed_300" 96 48 (1088/100) Option.none
        = 300 / (1088/100) ∧
    calculate_recommended_liters "custom" 96 48 (1088/100) Option.none
        = (Option.none).getD 400 / (1088/100) ∧
    calculate_recommended_liters "bogus" 96 48 (1088/100) Option.none
        = max ((96 : ℚ) - 48) 0 := by
  have h := recommended_liters_table 96 48 (1088/100) Option.none
    (by norm_num) (by norm_num) (by norm_num) (by intro a ha; cases ha)
  exact ⟨h.1, h.2.1, h.2.2.2.2.2.2.2.2.1,
    h.2.2.2.2.2.2.2.2.2 "bogus" (by decide)⟩

/-! ### C7: months to payback -/

/-- C7: for nonnegative `roi_accumulated`, `solar_investment` and
`savings_monthly`, the payback computation is 0 when the accumulated ROI
already covers the investment, `(investment − roi) / savings` when savings
are positive, and null otherwise. -/
theorem months_to_payback_spec (roi inv sav : ℚ)
    (hroi : 0 ≤ roi) (hinv : 0 ≤ inv) (hsav : 0 ≤ sav) :
    months_to_payback_calc sav inv roi =
      (if inv ≤ roi then Option.some 0
       else if 0 < sav then Option.some ((inv - roi) / sav)
       else Option.none) := by
  by_cases h : inv ≤ roi
  · have h1 : ¬(sav > 0 ∧ inv > roi) := by
      rintro ⟨_, h2⟩
      linarith
    simp [months_to_payback_calc, h1, h]
  · push_neg at h
    by_cases hs : 0 < sav
    · simp [months_to_payback_calc, hs, h, not_le.mpr h]
    · have h1 : ¬(sav > 0 ∧ inv > roi) := by
        rintro ⟨h2, _⟩
        exact hs h2
      simp [months_to_payback_calc, h1, hs, not_le.mpr h]

/-- C7 witness at `roi = 100`, `investment = 1000`, `savings = 50` (and a
second application with `roi = 1200 ≥ investment`). -/
theorem months_to_payback_spec_witness :
    months_to_payback_calc 50 1000 100 =
      (if (1000 : ℚ) ≤ 100 then Option.some 0
       else if (0 : ℚ) < 50 then Option.some (((1000 : ℚ) - 100) / 50)
       else Option.none) ∧
    months_to_payback_calc 50 1000 1200 =
      (if (1000 : ℚ) ≤ 1200 then Option.some 0
       else if (0 : ℚ) < 50 then Option.some (((1000 : ℚ) - 1200) / 50)
       else Option.none) :=
  ⟨months_to_payback_spec 100 1000 50 (by norm_num) (by norm_num) (by norm_num),
   months_to_payback_spec 1200 1000 50 (by norm_num) (by norm_num) (by norm_num)⟩

/-! ### C6: days since refill never zero -/

/-- C6: with a non-empty refill history, `days_since_refill` is at least 1
for every current time, including times at or before the most recent
refill's timestamp, so the daily-consumption division never divides by
zero. -/
theorem days_since_refill_pos (stored : StoredData) (usable_capacity now : ℚ)
    (h : stored.refill_history ≠ []) :
    1 ≤ (calculate_consumption stored usable_capacity now).days_since_refill := by
  rcases hl : stored.refill_history.getLast? with _ | last
  · exact absurd (List.getLast?_eq_none_iff.mp hl) h
  · unfold calculate_consumption
    rw [hl]
    exact le_max_right _ _

/-- C6 witness: one refill dated at day 10, queried at the same instant
(`now = 10`) — the elapsed days are still floored up to 1. -/
theorem days_since_refill_pos_witness :
    1 ≤ (calculate_consumption
      { current_level := 50
        refill_history := [{ date := 10, liters := 40, price_per_liter := 11,
                             total_cost := 440, level_before := 20,
                             level_after := Option.some 60 }]
        solar_roi_accumulated := 0
        heating_mode := HeatingMode.gas_only
        refill_strategy := "fill_complete"
        custom_strategy_amount := Option.none
        last_solar_update := Option.none } 96 10).days_since_refill :=
  days_since_refill_pos _ 96 10 (by decide)

/-! ### C10: missing `level_after` defaults to a full tank -/

/-- C10: when the most recent refill record lacks `level_after`,
consumption is computed as if the post-refill level were 100%,
`liters_consumed = max(usable_capacity × 100/100 − current_liters, 0)`
(at display precision), rather than failing or defaulting to zero. -/
theorem consumption_missing_level_after (stored : StoredData)
    (usable_capacity now : ℚ) (last : RefillRecord)
    (hl : stored.refill_history.getLast? = Option.some last)
    (hla : last.level_after = Option.none) :
    (calculate_consumption stored usable_capacity now).liters_consumed
      = roundTo 2 (max (usable_capacity * (100/100)
          - usable_capacity * (stored.current_level / 100)) 0) := by
  unfold calculate_consumption
  rw [hl]
  simp only [hla, Option.getD_none]

/-- C10 witness: a single legacy record with no `level_after`, tank at
30%, usable capacity 96 L — consumption treats the refill as 100%. -/
theorem consumption_missing_level_after_witness :
    (calculate_consumption
      { current_level := 30
        refill_history := [{ date := 0, liters := 40, price_per_liter := 11,
                             total_cost := 440, level_before := 20,
                             level_after := Option.none }]
        solar_roi_accumulated := 0
        heating_mode := HeatingMode.gas_only
        refill_strategy := "fill_complete"
        custom_strategy_amount := Option.none
        last_solar_update := Option.none } 96 7).liters_consumed
      = roundTo 2 (max ((96 : ℚ) * (100/100) - 96 * ((30 : ℚ) / 100)) 0) :=
  consumption_missing_level_after _ 96 7 _ rfl rfl

/-! ### C4: projection guards division and caps the resulting level -/

/-- C4: when `daily > 0`, the projection reports
`days_remaining = current_liters / daily`,
`weeks_remaining = days_remaining / 7` and
`next_refill_date = now + days_remaining` (time fields at display
precision); when `daily = 0` all three are null (no division by zero);
and in every case `resulting_level` is the display rounding of
`min(100, (current_liters + recommended_liters)/usable_capacity × 100)`,
hence at most 100 even when current plus recommended exceeds capacity. -/
theorem projection_spec (strategy : String) (amt : Option ℚ)
    (price_per_liter daily current_liters usable_capacity now : ℚ) :
    (0 < daily →
      (calculate_projection strategy amt price_per_liter daily current_liters
          usable_capacity now).days_remaining
        = Option.some (roundTo 1 (current_liters / daily)) ∧
      (calculate_projection strategy amt price_per_liter daily current_liters
          usable_capacity now).weeks_remaining
        = Option.some (roundTo 1 (current_liters / daily / 7)) ∧
      (calculate_projection strategy amt price_per_liter daily current_liters
          usable_capacity now).next_refill_date
        = Option.some (now + current_liters / daily)) ∧
    (daily = 0 →
      (calculate_projection strategy amt price_per_liter daily current_liters
          usable_capacity now).days_remaining = Option.none ∧
      (calculate_projection strategy amt price_per_liter daily current_liters
          usable_capacity now).weeks_remaining = Option.none ∧
      (calculate_projection strategy amt price_per_liter daily current_liters
          usable_capacity now).next_refill_date = Option.none) ∧
    (calculate_projection strategy amt price_per_liter daily current_liters
        usable_capacity now).resulting_level
      = roundTo 1 (min (((current_liters
            + calculate_recommended_liters strategy usable_capacity
                current_liters price_per_liter amt) / usable_capacity) * 100)
          100) ∧
    (calculate_projection strategy amt price_per_liter daily current_liters
        usable_capacity now).resulting_level ≤ 100 := by
  by_cases hd : daily > 0
  · refine ⟨fun _ => ?_, fun h0 => absurd h0 (by linarith), ?_, ?_⟩
    · unfold calculate_projection
      rw [if_pos hd]
      exact ⟨rfl, rfl, rfl⟩
    · unfold calculate_projection
      rw [if_pos hd]
    · unfold calculate_projection
      rw [if_pos hd]
      exact roundTo_le_hundred 1 _ (min_le_right _ _)
  · refine ⟨fun h => absurd h hd, fun _ => ?_, ?_, ?_⟩
    · unfold calculate_projection
      rw [if_neg hd]
      exact ⟨rfl, rfl, rfl⟩
    · unfold calculate_projection
      rw [if_neg hd]
    · unfold calculate_projection
      rw [if_neg hd]
      exact roundTo_le_hundred 1 _ (min_le_right _ _)

/-- C4 witness: `fill_complete` strategy, price 10.88, daily consumption
2 L, 48 L on hand, usable capacity 96 L, at day 100 (positive-consumption
branch), plus the zero-consumption branch at the same state. -/
theorem projection_spec_witness :
    (calculate_projection "fill_complete" Option.none (1088/100) 2 48 96
        100).days_remaining = Option.some (roundTo 1 ((48 : ℚ) / 2)) ∧
    (calculate_projection "fill_complete" Option.none (1088/100) 2 48 96
        100).next_refill_date = Option.some ((100 : ℚ) + 48 / 2) ∧
    (calculate_projection "fill_complete" Option.none (1088/100) 0 48 96
        100).days_remaining = Option.none ∧
    (calculate_projection "fill_complete" Option.none (1088/100) 2 48 96
        100).resulting_level ≤ 100 := by
  have h1 := projection_spec "fill_complete" Option.none (1088/100) 2 48 96 100
  have h2 := projection_spec "fill_complete" Option.none (1088/100) 0 48 96 100
  exact ⟨(h1.1 (by norm_num)).1, (h1.1 (by norm_num)).2.2,
    (h2.2.1 rfl).1, h1.2.2.2⟩

/-! ### C1: solar ROI accrues at most once per calendar month -/

theorem update_solar_roi_same_month (stored : StoredData) (lu : DateTime)
    (sol : Solar) (now : DateTime)
    (hlu : stored.last_solar_update = Option.some lu)
    (hm : now.month = lu.month) (hy : now.year = lu.year) :
    update_solar_roi stored (Option.some sol) now = stored := by
  have hcond : ¬(now.month ≠ lu.month ∨ now.year ≠ lu.year) := by
    push_neg
    exact ⟨hm, hy⟩
  simp [update_solar_roi, hlu, hcond]

theorem run_solar_updates_fixed (m : ℕ) (y : ℤ)
    (calls : List (Solar × DateTime)) (stored : StoredData) (lu : DateTime)
    (hlu : stored.last_solar_update = Option.some lu)
    (hm : lu.month = m) (hy : lu.year = y)
    (hsame : ∀ c ∈ calls, (Prod.snd c).month = m ∧ (Prod.snd c).year = y) :
    run_solar_updates stored calls = stored := by
  induction calls with
  | nil => rfl
  | cons c rest ih =>
      have hc := hsame c (List.mem_cons_self _ _)
      have hstep : update_solar_roi stored (Option.some c.1) c.2 = stored :=
        update_solar_roi_same_month stored lu c.1 c.2 hlu (by rw [hc.1, hm])
          (by rw [hc.2, hy])
      show run_solar_updates (update_solar_roi stored (Option.some c.1) c.2) rest
          = stored
      rw [hstep]
      exact ih fun d hd => hsame d (List.mem_cons_of_mem _ hd)

/-- C1: on a first-ever refresh with solar computed, the engine records the
current month without touching `solar_roi_accumulated`; on a later refresh
it adds the just-computed `savings_monthly` exactly when the calendar
month/year differs from the recorded one; and over any sequence of
refreshes within one calendar month the total is incremented at most once
(it either stays put or grows once by the first call's savings). -/
theorem solar_roi_once_per_month (stored : StoredData) (m : ℕ) (y : ℤ)
    (calls : List (Solar × DateTime))
    (hsame : ∀ c ∈ calls, (Prod.snd c).month = m ∧ (Prod.snd c).year = y) :
    (stored.last_solar_update = Option.none →
      ∀ (sol : Solar) (now : DateTime),
        (update_solar_roi stored (Option.some sol) now).solar_roi_accumulated
            = stored.solar_roi_accumulated ∧
        (update_solar_roi stored (Option.some sol) now).last_solar_update
            = Option.some now) ∧
    (∀ (lu : DateTime) (sol : Solar) (now : DateTime),
      stored.last_solar_update = Option.some lu →
      (update_solar_roi stored (Option.some sol) now).solar_roi_accumulated
        = (if now.month ≠ lu.month ∨ now.year ≠ lu.year
           then stored.solar_roi_accumulated + sol.savings_monthly
           else stored.solar_roi_accumulated)) ∧
    (∀ (c : Solar × DateTime) (rest : List (Solar × DateTime)),
      calls = c :: rest →
      (run_solar_updates stored calls).solar_roi_accumulated
          = stored.solar_roi_accumulated ∨
      (run_solar_updates stored calls).solar_roi_accumulated
          = stored.solar_roi_accumulated + (Prod.fst c).savings_monthly) := by
  refine ⟨?_, ?_, ?_⟩
  · intro h sol now
    constructor <;> simp [update_solar_roi, h]
  · intro lu sol now h
    by_cases hc : now.month ≠ lu.month ∨ now.year ≠ lu.year
    · simp [update_solar_roi, h, hc]
    · rw [if_neg hc]
      push_neg at hc
      rw [update_solar_roi_same_month stored lu sol now h hc.1 hc.2]
  · intro c rest hc
    subst hc
    have hhead := hsame c (List.mem_cons_self _ _)
    have hrest : ∀ d ∈ rest, (Prod.snd d).month = m ∧ (Prod.snd d).year = y :=
      fun d hd => hsame d (List.mem_cons_of_mem _ hd)
    have hshow : run_solar_updates stored (c :: rest)
        = run_solar_updates (update_solar_roi stored (Option.some c.1) c.2) rest :=
      rfl
    rcases hlu : stored.last_solar_update with _ | lu
    · have hstep : update_solar_roi stored (Option.some c.1) c.2
          = { stored with last_solar_update := Option.some c.2 } := by
        simp [update_solar_roi, hlu]
      rw [hshow, hstep]
      rw [run_solar_updates_fixed m y rest _ c.2 rfl hhead.1 hhead.2 hrest]
      exact Or.inl rfl
    · by_cases hd : c.2.month ≠ lu.month ∨ c.2.year ≠ lu.year
      · have hstep : update_solar_roi stored (Option.some c.1) c.2
            = { stored with
                  solar_roi_accumulated :=
                    stored.solar_roi_accumulated + c.1.savings_monthly
                  last_solar_update := Option.some c.2 } := by
          simp [update_solar_roi, hlu, hd]
        rw [hshow, hstep]
        rw [run_solar_updates_fixed m y rest _ c.2 rfl hhead.1 hhead.2 hrest]
        exact Or.inr rfl
      · push_neg at hd
        have hstep : update_solar_roi stored (Option.some c.1) c.2 = stored :=
          update_solar_roi_same_month stored lu c.1 c.2 hlu hd.1 hd.2
        rw [hshow, hstep]
        rw [run_solar_updates_fixed m y rest stored lu hlu
          (by rw [← hd.1, hhead.1]) (by rw [← hd.2, hhead.2]) hrest]
        exact Or.inl rfl

/-- C1 witness: three refreshes inside March 2025 starting from a state
whose baseline is February 2025 — the ROI grows exactly once, by the first
call's savings. -/
theorem solar_roi_once_per_month_witness :
    (run_solar_updates
      { current_level := 50, refill_history := [], solar_roi_accumulated := 10
        heating_mode := HeatingMode.solar_gas_hybrid
        refill_strategy := "fill_complete"
        custom_strategy_amount := Option.none
        last_solar_update := Option.some { t := 40, month := 2, year := 2025 } }
      [({ efficiency_real := 70, savings_monthly := 274, roi_accumulated := 10
          roi_percentage := 0, months_to_payback := Option.none
          hot_water_consumption := 1
          heating_mode := HeatingMode.solar_gas_hybrid },
        { t := 70, month := 3, year := 2025 }),
       ({ efficiency_real := 70, savings_monthly := 300, roi_accumulated := 10
          roi_percentage := 0, months_to_payback := Option.none
          hot_water_consumption := 1
          heating_mode := HeatingMode.solar_gas_hybrid },
        { t := 71, month := 3, year := 2025 }),
       ({ efficiency_real := 70, savings_monthly := 280, roi_accumulated := 10
          roi_percentage := 0, months_to_payback := Option.none
          hot_water_consumption := 1
          heating_mode := HeatingMode.solar_gas_hybrid },
        { t := 72, month := 3, year := 2025 })]).solar_roi_accumulated = 10 ∨
    (run_solar_updates
      { current_level := 50, refill_history := [], solar_roi_accumulated := 10
        heating_mode := HeatingMode.solar_gas_hybrid
        refill_strategy := "fill_complete"
        custom_strategy_amount := Option.none
        last_solar_update := Option.some { t := 40, month := 2, year := 2025 } }
      [({ efficiency_real := 70, savings_monthly := 274, roi_accumulated := 10
          roi_percentage := 0, months_to_payback := Option.none
          hot_water_consumption := 1
          heating_mode := HeatingMode.solar_gas_hybrid },
        { t := 70, month := 3, year := 2025 }),
       ({ efficiency_real := 70, savings_monthly := 300, roi_accumulated := 10
          roi_percentage := 0, months_to_payback := Option.none
          hot_water_consumption := 1
          heating_mode := HeatingMode.solar_gas_hybrid },
        { t := 71, month := 3, year := 2025 }),
       ({ efficiency_real := 70, savings_monthly := 280, roi_accumulated := 10
          roi_percentage := 0, months_to_payback := Option.none
          hot_water_consumption := 1
          heating_mode := HeatingMode.solar_gas_hybrid },
        { t := 72, month := 3, year := 2025 })]).solar_roi_accumulated
      = 10 + 274 := by
  have h := solar_roi_once_per_month
    { current_level := 50, refill_history := [], solar_roi_accumulated := 10
      heating_mode := HeatingMode.solar_gas_hybrid
      refill_strategy := "fill_complete"
      custom_strategy_amount := Option.none
      last_solar_update := Option.some { t := 40, month := 2, year := 2025 } }
    3 2025
    [({ efficiency_real := 70, savings_monthly := 274, roi_accumulated := 10
        roi_percentage := 0, months_to_payback := Option.none
        hot_water_consumption := 1
        heating_mode := HeatingMode.solar_gas_hybrid },
      { t := 70, month := 3, year := 2025 }),
     ({ efficiency_real := 70, savings_monthly := 300, roi_accumulated := 10
        roi_percentage := 0, months_to_payback := Option.none
        hot_water_consumption := 1
        heating_mode := HeatingMode.solar_gas_hybrid },
      { t := 71, month := 3, year := 2025 }),
     ({ efficiency_real := 70, savings_monthly := 280, roi_accumulated := 10
        roi_percentage := 0, months_to_payback := Option.none
        hot_water_consumption := 1
        heating_mode := HeatingMode.solar_gas_hybrid },
      { t := 72, month := 3, year := 2025 })]
    (by intro c hc; fin_cases hc <;> exact ⟨rfl, rfl⟩)
  exact h.2.2 _ _ rfl

/-! ### C5: the level invariant 0 ≤ current_level ≤ 100 -/

theorem update_solar_roi_current_level (stored : StoredData)
    (solar : Option Solar) (now : DateTime) :
    (update_solar_roi stored solar now).current_level = stored.current_level := by
  rcases solar with _ | s
  · rfl
  · rcases hl : stored.last_solar_update with _ | lu
    · simp [update_solar_roi, hl]
    · by_cases hc : now.month ≠ lu.month ∨ now.year ≠ lu.year
      · simp [update_solar_roi, hl, hc]
      · rw [update_solar_roi_same_month stored lu s now hl
          (by push_neg at hc; exact hc.1) (by push_neg at hc; exact hc.2)]

theorem set_strategy_current_level (stored : StoredData) (strategy : String)
    (amount : Option ℚ) :
    (set_strategy stored strategy amount).current_level = stored.current_level := by
  rcases amount with _ | a
  · rfl
  · by_cases h : strategy = "custom" <;> simp [set_strategy, h]

theorem step_level_invariant (stored : StoredData) (op : Op)
    (hop : validOp op)
    (h0 : 0 ≤ stored.current_level) (h100 : stored.current_level ≤ 100) :
    0 ≤ (step stored op).current_level ∧ (step stored op).current_level ≤ 100 := by
  cases op with
  | op_record_refill cfg liters price d =>
      obtain ⟨hl0, hl200, hu⟩ := hop
      have hlift : 0 ≤ cfg.usable_capacity * (stored.current_level / 100) :=
        mul_nonneg hu.le (by positivity)
      constructor
      · show 0 ≤ min (((cfg.usable_capacity * (stored.current_level / 100) + liters)
            / cfg.usable_capacity) * 100) 100
        refine le_min ?_ (by norm_num)
        apply mul_nonneg _ (by norm_num)
        apply div_nonneg _ hu.le
        linarith
      · show min (((cfg.usable_capacity * (stored.current_level / 100) + liters)
            / cfg.usable_capacity) * 100) 100 ≤ 100
        exact min_le_right _ _
  | op_update_level level =>
      constructor
      · exact le_max_left _ _
      · exact max_le (by norm_num) (min_le_left _ _)
  | op_update_price price => exact ⟨h0, h100⟩
  | op_set_heating_mode mode => exact ⟨h0, h100⟩
  | op_set_strategy strategy amount =>
      rw [show (step stored (Op.op_set_strategy strategy amount)).current_level
          = stored.current_level from set_strategy_current_level stored strategy amount]
      exact ⟨h0, h100⟩
  | op_refresh cfg now =>
      rw [show (step stored (Op.op_refresh cfg now)).current_level
          = stored.current_level from update_solar_roi_current_level stored _ now]
      exact ⟨h0, h100⟩

/-- C5: starting from any state whose level satisfies 0 ≤ level ≤ 100, and
running any sequence of the coordinator's operations with externally
validated inputs (refill liters in [0, 200] with positive usable capacity,
level updates in [0, 100]), the invariant 0 ≤ current_level ≤ 100 holds
after every operation: `update_level` clamps into [0, 100] and
`record_refill` caps the new level at 100 and cannot drive it below 0. -/
theorem level_invariant (stored : StoredData) (ops : List Op)
    (h0 : 0 ≤ stored.current_level) (h100 : stored.current_level ≤ 100)
    (hops : ∀ op ∈ ops, validOp op) :
    0 ≤ (run_ops stored ops).current_level ∧
    (run_ops stored ops).current_level ≤ 100 := by
  induction ops generalizing stored with
  | nil => exact ⟨h0, h100⟩
  | cons op rest ih =>
      have h1 := step_level_invariant stored op (hops op (List.mem_cons_self _ _))
        h0 h100
      exact ih (step stored op) h1.1 h1.2
        fun o ho => hops o (List.mem_cons_of_mem _ ho)

/-- C5 witness: from an initial level of 20%, record a 50 L refill into a
96 L usable tank, then set the level to 80 — the level stays in [0, 100]. -/
theorem level_invariant_witness :
    0 ≤ (run_ops
      { current_level := 20, refill_history := [], solar_roi_accumulated := 0
        heating_mode := HeatingMode.gas_only
        refill_strategy := "fill_complete"
        custom_strategy_amount := Option.none
        last_solar_update := Option.none }
      [Op.op_record_refill
          { usable_capacity := 96, price_per_liter := 11, has_solar := false
            solar_investment := 0, solar_efficiency := 70 } 50 11
          { t := 0, month := 1, year := 2025 },
       Op.op_update_level 80]).current_level ∧
    (run_ops
      { current_level := 20, refill_history := [], solar_roi_accumulated := 0
        heating_mode := HeatingMode.gas_only
        refill_strategy := "fill_complete"
        custom_strategy_amount := Option.none
        last_solar_update := Option.none }
      [Op.op_record_refill
          { usable_capacity := 96, price_per_liter := 11, has_solar := false
            solar_investment := 0, solar_efficiency := 70 } 50 11
          { t := 0, month := 1, year := 2025 },
       Op.op_update_level 80]).current_level ≤ 100 :=
  level_invariant _ _ (by norm_num) (by norm_num)
    (by
      intro op hop
      fin_cases hop
      · exact ⟨by norm_num, by norm_num, by norm_num⟩
      · exact ⟨by norm_num, by norm_num⟩)

/-! ### C8: solar ROI is monotonically non-decreasing -/

theorem calculate_consumption_monthly_nonneg (stored : StoredData)
    (usable_capacity now : ℚ) :
    0 ≤ (calculate_consumption stored usable_capacity now).monthly := by
  rcases hl : stored.refill_history.getLast? with _ | last
  · simp [calculate_consumption, hl]
  · unfold calculate_consumption
    rw [hl]
    apply roundTo_nonneg
    have hmax : (0 : ℚ) ≤ max (usable_capacity * (last.level_after.getD 100 / 100)
        - usable_capacity * (stored.current_level / 100)) 0 := le_max_right _ _
    split_ifs with h
    · have h2 : (0 : ℚ) < ((max ⌊now - last.date⌋ 1 : ℤ) : ℚ) := by
        exact_mod_cast h
      exact mul_nonneg (div_nonneg hmax h2.le) (by norm_num)
    · norm_num

theorem calculate_solar_savings_nonneg (monthly_consumption price_per_liter
    solar_efficiency solar_investment : ℚ) (heating_mode : HeatingMode)
    (roi_accumulated : ℚ) (hm : 0 ≤ monthly_consumption)
    (hp : 0 ≤ price_per_liter) (he : 0 ≤ solar_efficiency) :
    0 ≤ (calculate_solar monthly_consumption price_per_liter solar_efficiency
        solar_investment heating_mode roi_accumulated).savings_monthly := by
  have hW : (0 : ℚ) ≤ WATER_HEATING_BASE_PERCENTAGE / 100 := by
    norm_num [WATER_HEATING_BASE_PERCENTAGE]
  cases heating_mode with
  | solar_gas_hybrid =>
      apply roundTo_nonneg
      exact mul_nonneg
        (mul_nonneg (mul_nonneg hm hW) (div_nonneg he (by norm_num))) hp
  | solar_only =>
      apply roundTo_nonneg
      exact mul_nonneg (mul_nonneg (mul_nonneg hm hW) (by norm_num)) hp
  | gas_only =>
      apply roundTo_nonneg
      exact mul_nonneg (mul_nonneg (mul_nonneg hm hW) (by norm_num)) hp
  | no_heating =>
      apply roundTo_nonneg
      exact mul_nonneg (mul_nonneg (mul_nonneg hm hW) (by norm_num)) hp

theorem update_solar_roi_mono (stored : StoredData) (solar : Option Solar)
    (now : DateTime) (h : ∀ s ∈ solar, 0 ≤ s.savings_monthly) :
    stored.solar_roi_accumulated
      ≤ (update_solar_roi stored solar now).solar_roi_accumulated := by
  rcases solar with _ | s
  · exact le_refl _
  · have hs := h s rfl
    rcases hl : stored.last_solar_update with _ | lu
    · simp [update_solar_roi, hl]
    · by_cases hc : now.month ≠ lu.month ∨ now.year ≠ lu.year
      · simp only [update_solar_roi, hl]
        rw [if_pos hc]
        show stored.solar_roi_accumulated
            ≤ stored.solar_roi_accumulated + s.savings_monthly
        linarith
      · rw [update_solar_roi_same_month stored lu s now hl
          (by push_neg at hc; exact hc.1) (by push_neg at hc; exact hc.2)]

theorem step_roi_mono (stored : StoredData) (op : Op) (hop : solarValidOp op) :
    stored.solar_roi_accumulated ≤ (step stored op).solar_roi_accumulated := by
  cases op with
  | op_record_refill cfg liters price d => exact le_refl _
  | op_update_level level => exact le_refl _
  | op_update_price price => exact le_refl _
  | op_set_heating_mode mode => exact le_refl _
  | op_set_strategy strategy amount =>
      rcases amount with _ | a
      · exact le_refl _
      · by_cases h : strategy = "custom" <;> simp [step, set_strategy, h]
  | op_refresh cfg now =>
      obtain ⟨hp, he⟩ := hop
      apply update_solar_roi_mono
      intro s hs
      by_cases hsolar : cfg.has_solar
      · rw [if_pos hsolar] at hs
        rcases hs with ⟨rfl⟩
        exact calculate_solar_savings_nonneg _ _ _ _ _ _
          (calculate_consumption_monthly_nonneg stored cfg.usable_capacity now.t)
          hp he
      · rw [if_neg hsolar] at hs
        cases hs

/-- C8: across any sequence of operations and refreshes with nonnegative
configured price and solar efficiency, `solar_roi_accumulated` never
decreases: no operation subtracts from it, and the only modification is
`_update_solar_roi` adding the (nonnegative) computed monthly savings. -/
theorem solar_roi_monotone (stored : StoredData) (ops : List Op)
    (hops : ∀ op ∈ ops, solarValidOp op) :
    stored.solar_roi_accumulated ≤ (run_ops stored ops).solar_roi_accumulated := by
  induction ops generalizing stored with
  | nil => exact le_refl _
  | cons op rest ih =>
      calc stored.solar_roi_accumulated
          ≤ (step stored op).solar_roi_accumulated :=
            step_roi_mono stored op (hops op (List.mem_cons_self _ _))
      _ ≤ (run_ops (step stored op) rest).solar_roi_accumulated :=
            ih (step stored op) fun o ho => hops o (List.mem_cons_of_mem _ ho)

/-- C8 witness: a refill, a refresh with solar (price 10.88, efficiency
70) in April 2025, and a level update — the accumulated ROI of 10 never
decreases. -/
theorem solar_roi_monotone_witness :
    (10 : ℚ) ≤ (run_ops
      { current_level := 50, refill_history := [], solar_roi_accumulated := 10
        heating_mode := HeatingMode.solar_gas_hybrid
        refill_strategy := "fill_complete"
        custom_strategy_amount := Option.none
        last_solar_update := Option.some { t := 40, month := 2, year := 2025 } }
      [Op.op_record_refill
          { usable_capacity := 96, price_per_liter := 1088/100, has_solar := true
            solar_investment := 25000, solar_efficiency := 70 } 50 (1088/100)
          { t := 90, month := 4, year := 2025 },
       Op.op_refresh
          { usable_capacity := 96, price_per_liter := 1088/100, has_solar := true
            solar_investment := 25000, solar_efficiency := 70 }
          { t := 95, month := 4, year := 2025 },
       Op.op_update_level 40]).solar_roi_accumulated :=
  solar_roi_monotone _ _
    (by
      intro op hop
      fin_cases hop
      · exact trivial
      · exact ⟨by norm_num, by norm_num⟩
      · exact trivial)

/-! ### C2: recording a refill (history append, truncation, level update) -/

/-- C2 counterexample: at prior level 0.05% (96 L usable capacity, 50 L
refill at 11/L) the appended record's `level_before` is `round(0.05, 1)
= 0.0`, not the prior level itself — the stored record fields are display
rounded to one decimal, so the claim's unrounded field equations fail. -/
theorem record_refill_level_before_not_exact :
    (record_refill
        { current_level := 1/20, refill_history := []
          solar_roi_accumulated := 0
          heating_mode := HeatingMode.gas_only
          refill_strategy := "fill_complete"
          custom_strategy_amount := Option.none
          last_solar_update := Option.none }
        96 50 11 { t := 0, month := 1, year := 2025 }).refill_history.map
      RefillRecord.level_before ≠ [(1/20 : ℚ)] := by
  have hval : (record_refill
      { current_level := 1/20, refill_history := []
        solar_roi_accumulated := 0
        heating_mode := HeatingMode.gas_only
        refill_strategy := "fill_complete"
        custom_strategy_amount := Option.none
        last_solar_update := Option.none }
      96 50 11 { t := 0, month := 1, year := 2025 }).refill_history.map
      RefillRecord.level_before = [(0 : ℚ)] := by
    norm_num [record_refill, MAX_REFILL_HISTORY, roundTo, roundHalfEven]
  rw [hval]
  intro h
  have h0 : (0 : ℚ) = 1/20 := List.singleton_injective h
  norm_num at h0

/-- C2 (amended): `record_refill` appends exactly one history record —
whose `level_before` is the prior level rounded to one decimal and whose
`level_after` is `min((prior_liters + liters)/usable_capacity × 100, 100)`
rounded to one decimal — truncates the history to the
`MAX_REFILL_HISTORY = 50` most recent records dropping the oldest first,
and sets `current_level` to the unrounded `level_after`. -/
theorem record_refill_spec (stored : StoredData) (u liters price : ℚ)
    (d : DateTime) (h0 : 0 ≤ stored.current_level)
    (h100 : stored.current_level ≤ 100) (hu : 0 < u)
    (hl0 : 0 ≤ liters) (hl200 : liters ≤ 200) :
    (record_refill stored u liters price d).refill_history
      = (stored.refill_history ++
          [({ date := d.t, liters := liters, price_per_liter := price
              total_cost := roundTo 2 (liters * price)
              level_before := roundTo 1 stored.current_level
              level_after := Option.some (roundTo 1 (min
                (((u * (stored.current_level / 100) + liters) / u) * 100)
                100)) } : RefillRecord)]).drop
          (stored.refill_history.length + 1 - MAX_REFILL_HISTORY) ∧
    (record_refill stored u liters price d).current_level
      = min (((u * (stored.current_level / 100) + liters) / u) * 100) 100 ∧
    (stored.refill_history.length ≤ MAX_REFILL_HISTORY →
      (record_refill stored u liters price d).refill_history.length
        ≤ MAX_REFILL_HISTORY) := by
  have hlen : (stored.refill_history ++
      [({ date := d.t, liters := liters, price_per_liter := price
          total_cost := roundTo 2 (liters * price)
          level_before := roundTo 1 stored.current_level
          level_after := Option.some (roundTo 1 (min
            (((u * (stored.current_level / 100) + liters) / u) * 100)
            100)) } : RefillRecord)]).length
      = stored.refill_history.length + 1 := by
    rw [List.length_append, List.length_singleton]
  have hrr : (record_refill stored u liters price d).refill_history
      = (if (stored.refill_history ++
            [({ date := d.t, liters := liters, price_per_liter := price
                total_cost := roundTo 2 (liters * price)
                level_before := roundTo 1 stored.current_level
                level_after := Option.some (roundTo 1 (min
                  (((u * (stored.current_level / 100) + liters) / u) * 100)
                  100)) } : RefillRecord)]).length > MAX_REFILL_HISTORY
         then (stored.refill_history ++
            [({ date := d.t, liters := liters, price_per_liter := price
                total_cost := roundTo 2 (liters * price)
                level_before := roundTo 1 stored.current_level
                level_after := Option.some (roundTo 1 (min
                  (((u * (stored.current_level / 100) + liters) / u) * 100)
                  100)) } : RefillRecord)]).drop
              ((stored.refill_history ++
            [({ date := d.t, liters := liters, price_per_liter := price
                total_cost := roundTo 2 (liters * price)
                level_before := roundTo 1 stored.current_level
                level_after := Option.some (roundTo 1 (min
                  (((u * (stored.current_level / 100) + liters) / u) * 100)
                  100)) } : RefillRecord)]).length - MAX_REFILL_HISTORY)
         else stored.refill_history ++
            [({ date := d.t, liters := liters, price_per_liter := price
                total_cost := roundTo 2 (liters * price)
                level_before := roundTo 1 stored.current_level
                level_after := Option.some (roundTo 1 (min
                  (((u * (stored.current_level / 100) + liters) / u) * 100)
                  100)) } : RefillRecord)]) := rfl
  refine ⟨?_, rfl, ?_⟩
  · rw [hrr]
    split_ifs with h
    · rw [hlen]
    · rw [hlen] at h
      push_neg at h
      have hz : stored.refill_history.length + 1 - MAX_REFILL_HISTORY = 0 := by
        omega
      rw [hz, List.drop_zero]
  · intro hle
    rw [hrr]
    split_ifs with h
    · rw [List.length_drop, hlen]
      rw [hlen] at h
      omega
    · rw [hlen] at h ⊢
      push_neg at h
      exact h

/-- C2 witness: refill of 50 L at 11/L into a 96 L usable tank at 20%
level — one record is appended (rounded fields), no truncation occurs, and
the level becomes the unrounded `level_after`. -/
theorem record_refill_spec_witness :
    (record_refill
        { current_level := 20, refill_history := []
          solar_roi_accumulated := 0
          heating_mode := HeatingMode.gas_only
          refill_strategy := "fill_complete"
          custom_strategy_amount := Option.none
          last_solar_update := Option.none }
        96 50 11 { t := 0, month := 1, year := 2025 }).refill_history
      = (([] : List RefillRecord) ++
          [({ date := 0, liters := 50, price_per_liter := 11
              total_cost := roundTo 2 ((50 : ℚ) * 11)
              level_before := roundTo 1 (20 : ℚ)
              level_after := Option.some (roundTo 1 (min
                ((((96 : ℚ) * (20 / 100) + 50) / 96) * 100)
                100)) } : RefillRecord)]).drop
          (([] : List RefillRecord).length + 1 - MAX_REFILL_HISTORY) ∧
    (record_refill
        { current_level := 20, refill_history := []
          solar_roi_accumulated := 0
          heating_mode := HeatingMode.gas_only
          refill_strategy := "fill_complete"
          custom_strategy_amount := Option.none
          last_solar_update := Option.none }
        96 50 11 { t := 0, month := 1, year := 2025 }).current_level
      = min ((((96 : ℚ) * (20 / 100) + 50) / 96) * 100) 100 ∧
    (([] : List RefillRecord).length ≤ MAX_REFILL_HISTORY →
      (record_refill
        { current_level := 20, refill_history := []
          solar_roi_accumulated := 0
          heating_mode := HeatingMode.gas_only
          refill_strategy := "fill_complete"
          custom_strategy_amount := Option.none
          last_solar_update := Option.none }
        96 50 11 { t := 0, month := 1, year := 2025 }).refill_history.length
        ≤ MAX_REFILL_HISTORY) :=
  record_refill_spec
    { current_level := 20, refill_history := []
      solar_roi_accumulated := 0
      heating_mode := HeatingMode.gas_only
      refill_strategy := "fill_complete"
      custom_strategy_amount := Option.none
      last_solar_update := Option.none }
    96 50 11 { t := 0, month := 1, year := 2025 }
    (by norm_num) (by norm_num) (by norm_num) (by norm_num) (by norm_num)
